import Mathlib

/-!
Verification of the christinaAPI backend relay (`main.py`).

The file embeds, as executable Lean definitions, the parts of the program
the specification talks about:

* the extension normalizer `rename_if_code` together with the pieces of
  Python `pathlib` semantics it relies on (`Path.suffix`, `Path.stem`,
  `Path.with_suffix`, `str.lower`), modelled on the final path component
  as a list of characters;
* the authentication gate `get_current_user` (token extraction via
  `str.replace("Bearer ", "")`, the external identity-provider call, and
  the translation of every failure into an HTTP 401);
* the three generation endpoints `ask_gemini` (`/ask`), `upload_files`
  (`/upload`) and `analyze_screen` (`/analyze-screen`), each returning the
  HTTP outcome together with a trace of the external side effects it
  performed (tokens sent to the identity provider, files staged, remote
  uploads attempted, generation calls made, staged files deleted).

External collaborators (the identity provider, the remote file upload and
the generation call) are parameters of an `Env` record, so theorems
quantify over every possible behaviour of the external services.
-/

set_option autoImplicit false

namespace ChristinaAPI

/-! ### Python string/pathlib semantics used by the program -/

/-- Python `name.rfind('.')` restricted to a successful result: the index of
the last `'.'` in the character list, or `none` when there is no dot. -/
def rfindDot : List Char → Option Nat
  | [] => none
  | c :: cs =>
    match rfindDot cs with
    | some i => some (i + 1)
    | none => if c = '.' then some 0 else none

/-- Python `PurePath.suffix` on the final path component: the substring from
the last dot (inclusive) when that dot is neither the first nor the last
character of the name, and the empty string otherwise. -/
def pySuffix (name : List Char) : List Char :=
  match rfindDot name with
  | none => []
  | some i => if 0 < i ∧ i + 1 < name.length then name.drop i else []

/-- Python `PurePath.stem` on the final path component: the name with
`pySuffix` removed. -/
def pyStem (name : List Char) : List Char :=
  match rfindDot name with
  | none => name
  | some i => if 0 < i ∧ i + 1 < name.length then name.take i else name

/-- Python `PurePath.with_suffix(suf)` on the final path component: append
`suf` when the name has no suffix, else replace the old suffix by `suf`. -/
def pyWithSuffix (name suf : List Char) : List Char :=
  let old := pySuffix name
  if old = [] then name ++ suf else name.take (name.length - old.length) ++ suf

/-- The extension set `CODE_EXTENSIONS` from `main.py` (extensions to be
renamed to `.txt` before remote upload). -/
def CODE_EXTENSIONS : List (List Char) :=
  [".py".data, ".js".data, ".ts".data, ".jsx".data, ".tsx".data,
   ".java".data, ".c".data, ".cpp".data, ".cs".data, ".html".data,
   ".css".data, ".json".data, ".xml".data, ".sh".data, ".rb".data,
   ".php".data, ".go".data, ".rs".data, ".sql".data, ".yaml".data,
   ".yml".data]

/-- The expression `file_path.suffix.lower()` from `rename_if_code`. -/
def lowerExt (name : List Char) : List Char :=
  (pySuffix name).map Char.toLower

/-- The function `rename_if_code` from `main.py`, acting on the final path component:
if the lower-cased suffix is in `CODE_EXTENSIONS`, the path becomes the
same stem with suffix `.txt`; otherwise it is returned unchanged. -/
def rename_if_code (name : List Char) : List Char :=
  if lowerExt name ∈ CODE_EXTENSIONS then pyWithSuffix name ".txt".data
  else name

/-! ### Token extraction: `authorization.replace("Bearer ", "")` -/

/-- Python `s.replace("Bearer ", "")`: scan left to right, removing each
(non-overlapping) occurrence of the seven characters `Bearer ` and resuming
the scan after the removed occurrence. -/
def stripBearer : List Char → List Char
  | 'B' :: 'e' :: 'a' :: 'r' :: 'e' :: 'r' :: ' ' :: rest => stripBearer rest
  | c :: cs => c :: stripBearer cs
  | [] => []

/-- Whether the character list contains the substring `Bearer `. -/
def containsBearer : List Char → Bool
  | 'B' :: 'e' :: 'a' :: 'r' :: 'e' :: 'r' :: ' ' :: _ => true
  | _ :: cs => containsBearer cs
  | [] => false

/-- The assignment `token = authorization.replace("Bearer ", "")` from `get_current_user`. -/
def extractToken (a : String) : String :=
  String.mk (stripBearer a.data)

/-! ### The service model

`Env` packages the three external collaborators: the identity provider
(`supabase.auth.get_user`), the remote file upload (`client.files.upload`)
and the generation call (`client.models.generate_content`, taking the model
name and the content list). -/

/-- The user record returned by the identity provider
(`response.user`): id, email and the `user_metadata` dictionary. -/
structure UserRecord where
  id : String
  email : String
  user_metadata : List (String × String)
deriving DecidableEq

/-- The pydantic `User` model from `main.py`. -/
structure User where
  id : String
  email : String
  name : Option String
  avatar_url : Option String
deriving DecidableEq

/-- Outcome of `supabase.auth.get_user(token)`: a normal return carrying
`response.user` (possibly absent), or a raised exception. -/
inductive ProviderResult where
  | ok (user : Option UserRecord)
  | exn (msg : String)
deriving DecidableEq

/-- One element of a `contents` list passed to the generation call: an
uploaded-file reference or a plain text part. -/
inductive Content where
  | file (ref : Nat)
  | text (s : String)
deriving DecidableEq

/-- The external collaborators, as oracles a request interacts with. -/
structure Env where
  provider : String → ProviderResult
  upload : List Char → Except String Nat
  generate : String → List Content → Except String String

/-- A JSON response body produced by a handler. -/
inductive Body where
  | reply (t : String)
  | error (m : String)
deriving DecidableEq

/-- What the client observes: an HTTP 200 JSON body, an `HTTPException`
with an explicit status code, or an exception that escaped the handler
(an unhandled fault). -/
inductive Response where
  | json (b : Body)
  | status (code : Nat) (detail : String)
  | unhandled (msg : String)
deriving DecidableEq

/-- Result of the authentication dependency: a resolved user, or an
`HTTPException(401, detail)`. -/
inductive GateResult where
  | ok (u : User)
  | unauthorized (detail : String)
deriving DecidableEq

/-- Trace of the externally visible side effects of one request. -/
structure Trace where
  tokensSent : List String
  staged : List (List Char)
  uploadCalls : List (List Char)
  genCalls : List (String × List Content)
  deleted : List (List Char)
deriving DecidableEq

/-- Dictionary lookup `user_data.user_metadata.get(key)`: first matching key, `none` when the
key is missing. -/
def metaGet (m : List (String × String)) (k : String) : Option String :=
  (m.find? (fun p => p.1 == k)).map (fun p => p.2)

/-- The dependency `get_current_user` from `main.py`, returning the gate outcome together
with the list of tokens sent to the identity provider.  A missing or empty
(`falsy`) header yields 401 before any provider call; a provider exception
is caught and re-raised as 401; a provider response with no user raises
`HTTPException(401, "Invalid token")` inside the `try`, which the
`except Exception` clause re-wraps (Starlette stringifies an
`HTTPException` as `"<status>: <detail>"`). -/
def get_current_user (env : Env) (authorization : Option String) :
    GateResult × List String :=
  match authorization with
  | none => (GateResult.unauthorized "Authorization header missing", [])
  | some a =>
    if a = "" then (GateResult.unauthorized "Authorization header missing", [])
    else
      let token := extractToken a
      match env.provider token with
      | ProviderResult.exn e =>
          (GateResult.unauthorized ("Authentication failed: " ++ e), [token])
      | ProviderResult.ok none =>
          (GateResult.unauthorized "Authentication failed: 401: Invalid token",
           [token])
      | ProviderResult.ok (some r) =>
          (GateResult.ok
            ⟨r.id, r.email, metaGet r.user_metadata "full_name",
             metaGet r.user_metadata "avatar_url"⟩, [token])

/-- Endpoint `POST /ask` (`ask_gemini`): after the gate, call the generation model on
the prompt text.  The handler has no `try`/`except`, so a generation
exception escapes as an unhandled fault. -/
def ask_gemini (env : Env) (authorization : Option String) (text : String) :
    Response × Trace :=
  match get_current_user env authorization with
  | (GateResult.unauthorized d, toks) => (Response.status 401 d, ⟨toks, [], [], [], []⟩)
  | (GateResult.ok _, toks) =>
    match env.generate "gemini-2.5-flash" [Content.text text] with
    | Except.ok t =>
        (Response.json (Body.reply t),
         ⟨toks, [], [], [("gemini-2.5-flash", [Content.text text])], []⟩)
    | Except.error e =>
        (Response.unhandled e,
         ⟨toks, [], [], [("gemini-2.5-flash", [Content.text text])], []⟩)

/-- The per-file loop of `upload_files`: stage each file under its
client-supplied name, normalize the extension, attempt the remote upload;
the first remote-upload exception aborts the batch with the offending
client-supplied filename and message. -/
structure UploadPhase where
  staged : List (List Char)
  uploadCalls : List (List Char)
  result : Except (String × String) (List Nat)

/-- The `for file in files` loop of `upload_files` in `main.py`. -/
def processUploads (env : Env) : List String → UploadPhase
  | [] => ⟨[], [], Except.ok []⟩
  | f :: fs =>
    let orig := f.data
    let final := rename_if_code orig
    match env.upload final with
    | Except.error e => ⟨[orig], [final], Except.error (f, e)⟩
    | Except.ok r =>
      let rest := processUploads env fs
      ⟨orig :: rest.staged, final :: rest.uploadCalls,
        match rest.result with
        | Except.ok rs => Except.ok (r :: rs)
        | Except.error x => Except.error x⟩

/-- Endpoint `POST /upload` (`upload_files`): gate, per-file staging and remote
upload, then one generation call on `[*uploaded_files, "\n\n", prompt]`;
both the per-file failure and the generation failure are converted into a
JSON error body. -/
def upload_files (env : Env) (authorization : Option String)
    (files : List String) (prompt : String) : Response × Trace :=
  match get_current_user env authorization with
  | (GateResult.unauthorized d, toks) => (Response.status 401 d, ⟨toks, [], [], [], []⟩)
  | (GateResult.ok _, toks) =>
    let ph := processUploads env files
    match ph.result with
    | Except.error fe =>
        (Response.json (Body.error ("Error uploading file " ++ fe.1 ++ ": " ++ fe.2)),
         ⟨toks, ph.staged, ph.uploadCalls, [], []⟩)
    | Except.ok refs =>
      let contents := refs.map Content.file ++ [Content.text "\n\n", Content.text prompt]
      match env.generate "gemini-2.0-flash" contents with
      | Except.ok t =>
          (Response.json (Body.reply t),
           ⟨toks, ph.staged, ph.uploadCalls, [("gemini-2.0-flash", contents)], []⟩)
      | Except.error e =>
          (Response.json (Body.error e),
           ⟨toks, ph.staged, ph.uploadCalls, [("gemini-2.0-flash", contents)], []⟩)

/-- The staging name `f"screenshot_{screenshot.filename}"`. -/
def screenshotName (filename : String) : List Char :=
  "screenshot_".data ++ filename.data

/-- The composed instruction text of `analyze_screen` (the f-string framing
around the user's prompt). -/
def analyzeText (prompt : String) : String :=
  "Analyze this screenshot and help with: " ++ prompt ++
    ". Focus on any code, errors, UI elements, or technical content visible. Provide specific and actionable advice based on what you can see."

/-- Endpoint `POST /analyze-screen` (`analyze_screen`): gate, stage the screenshot
under the prefixed name, remote-upload it, one generation call on the
file reference plus the composed instruction; `screenshot_path.unlink()`
runs only on the success path, so `deleted` stays empty whenever the
remote upload or the generation call fails. -/
def analyze_screen (env : Env) (authorization : Option String)
    (filename prompt : String) : Response × Trace :=
  match get_current_user env authorization with
  | (GateResult.unauthorized d, toks) => (Response.status 401 d, ⟨toks, [], [], [], []⟩)
  | (GateResult.ok _, toks) =>
    let path := screenshotName filename
    match env.upload path with
    | Except.error e =>
        (Response.json (Body.error e), ⟨toks, [path], [path], [], []⟩)
    | Except.ok r =>
      let contents := [Content.file r, Content.text (analyzeText prompt)]
      match env.generate "gemini-2.0-flash" contents with
      | Except.error e =>
          (Response.json (Body.error e),
           ⟨toks, [path], [path], [("gemini-2.0-flash", contents)], []⟩)
      | Except.ok t =>
          (Response.json (Body.reply t),
           ⟨toks, [path], [path], [("gemini-2.0-flash", contents)], [path]⟩)

/-- Whether a response is an `HTTPException` with status 401. -/
def is401 : Response → Bool
  | Response.status 401 _ => true
  | _ => false

/-- The failure condition of the authentication gate, as the specification
states it: header absent (FastAPI's `Header(None)`; an empty header value is
likewise falsy), the provider rejecting the token with an exception, or the
provider returning no associated user. -/
def authFailCondition (env : Env) (auth : Option String) : Prop :=
  auth = none ∨ auth = some "" ∨
    ∃ a, auth = some a ∧ a ≠ "" ∧
      ((∃ m, env.provider (extractToken a) = ProviderResult.exn m) ∨
        env.provider (extractToken a) = ProviderResult.ok none)

/-! ### Concrete environments used to evaluate the model at specific inputs -/

/-- A provider record with no optional metadata. -/
def recW : UserRecord := ⟨"u1", "u1@example.com", []⟩

/-- The `User` the gate resolves from `recW`. -/
def userW : User := ⟨"u1", "u1@example.com", none, none⟩

/-- Provider accepts every token; every upload succeeds; the generation
call raises `boom`. -/
def envC1 : Env :=
  ⟨fun _ => ProviderResult.ok (some recW), fun _ => Except.ok 0,
   fun _ _ => Except.error "boom"⟩

/-- Provider accepts every token; the screenshot upload succeeds with
reference 5, any other upload raises `ufail`; every generation call raises
`gboom`. -/
def envC1w : Env :=
  ⟨fun _ => ProviderResult.ok (some recW),
   fun p => if p = screenshotName "s.png" then Except.ok 5 else Except.error "ufail",
   fun _ _ => Except.error "gboom"⟩

/-- Provider accepts every token; uploads succeed; the generation call
raises `boom`. -/
def envC2 : Env :=
  ⟨fun _ => ProviderResult.ok (some recW), fun _ => Except.ok 3,
   fun _ _ => Except.error "boom"⟩

/-- Provider accepts every token; uploading the normalized path `b.txt`
raises `boom`, any other upload succeeds with reference 7. -/
def envC4 : Env :=
  ⟨fun _ => ProviderResult.ok (some recW),
   fun p => if p = "b.txt".data then Except.error "boom" else Except.ok 7,
   fun _ _ => Except.ok "generated"⟩

/-- Provider accepts every token; uploading the normalized path `main.txt`
yields reference 1, any other upload reference 2; generation succeeds. -/
def envC5 : Env :=
  ⟨fun _ => ProviderResult.ok (some recW),
   fun p => if p = "main.txt".data then Except.ok 1 else Except.ok 2,
   fun _ _ => Except.ok "generated"⟩

/-- Provider returns no associated user for every token. -/
def envC6 : Env :=
  ⟨fun _ => ProviderResult.ok none, fun _ => Except.ok 0, fun _ _ => Except.ok "t"⟩

/-- Provider accepts exactly the token `abc`, resolving it to `rec7`. -/
def rec7 : UserRecord := ⟨"user-1", "ada@example.com", [("full_name", "Ada")]⟩

/-- Provider for `rec7`: accepts exactly the token `abc`. -/
def envC7 : Env :=
  ⟨fun t => if t = "abc" then ProviderResult.ok (some rec7) else ProviderResult.ok none,
   fun _ => Except.ok 0, fun _ _ => Except.ok "t"⟩

/-- Provider returns no associated user for every token. -/
def envC10 : Env :=
  ⟨fun _ => ProviderResult.ok none, fun _ => Except.ok 0, fun _ _ => Except.ok "t"⟩

/-! ### Lemmas about the extension normalizer -/

lemma pySuffix_eq_of_rfind (name : List Char) (i : Nat)
    (hf : rfindDot name = some i) :
    pySuffix name = if 0 < i ∧ i + 1 < name.length then name.drop i else [] := by
  unfold pySuffix
  rw [hf]

lemma pyStem_eq_of_rfind (name : List Char) (i : Nat)
    (hf : rfindDot name = some i) :
    pyStem name = if 0 < i ∧ i + 1 < name.length then name.take i else name := by
  unfold pyStem
  rw [hf]

lemma pySuffix_ne_nil_of_mem (name : List Char)
    (h : lowerExt name ∈ CODE_EXTENSIONS) : pySuffix name ≠ [] := by
  intro he
  unfold lowerExt at h
  rw [he] at h
  exact absurd h (by decide)

lemma pySuffix_spec (name : List Char) (h : pySuffix name ≠ []) :
    ∃ i, rfindDot name = some i ∧ 0 < i ∧ i + 1 < name.length ∧
      pySuffix name = name.drop i ∧ pyStem name = name.take i := by
  cases hf : rfindDot name with
  | none =>
    exfalso
    apply h
    unfold pySuffix
    rw [hf]
  | some i =>
    by_cases hc : 0 < i ∧ i + 1 < name.length
    · refine ⟨i, rfl, hc.1, hc.2, ?_, ?_⟩
      · rw [pySuffix_eq_of_rfind name i hf, if_pos hc]
      · rw [pyStem_eq_of_rfind name i hf, if_pos hc]
    · exfalso
      apply h
      rw [pySuffix_eq_of_rfind name i hf, if_neg hc]

lemma rfindDot_append_txt : ∀ s : List Char,
    rfindDot (s ++ ".txt".data) = some s.length
  | [] => rfl
  | c :: s => by simp [rfindDot, rfindDot_append_txt s]

lemma pySuffix_append_txt (s : List Char) (hs : s ≠ []) :
    pySuffix (s ++ ".txt".data) = ".txt".data ∧
      pyStem (s ++ ".txt".data) = s := by
  have hlen : 0 < s.length := List.length_pos.mpr hs
  have hfind := rfindDot_append_txt s
  have hcond : 0 < s.length ∧ s.length + 1 < (s ++ ".txt".data).length := by
    simp [List.length_append]
    omega
  constructor
  · rw [pySuffix_eq_of_rfind _ _ hfind, if_pos hcond]
    exact List.drop_left s ".txt".data
  · rw [pyStem_eq_of_rfind _ _ hfind, if_pos hcond]
    exact List.take_left s ".txt".data

lemma pyWithSuffix_eq (name suf : List Char) (h : pySuffix name ≠ []) :
    pyWithSuffix name suf =
      name.take (name.length - (pySuffix name).length) ++ suf := by
  simp [pyWithSuffix, h]

lemma rename_eq_of_mem (name : List Char)
    (h : lowerExt name ∈ CODE_EXTENSIONS) :
    rename_if_code name = pyStem name ++ ".txt".data ∧ pyStem name ≠ [] := by
  obtain ⟨i, hf, hi, hlen, hsuf, hstem⟩ :=
    pySuffix_spec name (pySuffix_ne_nil_of_mem name h)
  have holdlen : (pySuffix name).length = name.length - i := by
    rw [hsuf]; simp
  have hstem_ne : pyStem name ≠ [] := by
    rw [hstem]
    intro hnil
    have hlen2 := congrArg List.length hnil
    simp only [List.length_take, List.length_nil] at hlen2
    omega
  refine ⟨?_, hstem_ne⟩
  unfold rename_if_code
  rw [if_pos h, pyWithSuffix_eq name ".txt".data (pySuffix_ne_nil_of_mem name h),
    holdlen]
  have hii : name.length - (name.length - i) = i := by omega
  rw [hii, ← hstem]

/-- Claim C3: for every file path, if its extension (compared
case-insensitively) is in the recognized code-extension set, normalization
returns a path with the same stem and extension `.txt`; for every other
extension (or none) the path is returned unchanged.  Totality is witnessed
by `rename_if_code` being a plain Lean function. -/
theorem rename_if_code_spec (name : List Char) :
    (lowerExt name ∈ CODE_EXTENSIONS →
       rename_if_code name = pyStem name ++ ".txt".data ∧
       pyStem (rename_if_code name) = pyStem name ∧
       pySuffix (rename_if_code name) = ".txt".data) ∧
    (lowerExt name ∉ CODE_EXTENSIONS → rename_if_code name = name) := by
  constructor
  · intro h
    obtain ⟨heq, hne⟩ := rename_eq_of_mem name h
    obtain ⟨h1, h2⟩ := pySuffix_append_txt (pyStem name) hne
    exact ⟨heq, by rw [heq, h2], by rw [heq, h1]⟩
  · intro h
    unfold rename_if_code
    rw [if_neg h]

/-- Witness for C3 at concrete inputs: `main.py` is renamed to its stem
with `.txt`, `photo.jpeg` passes through unchanged. -/
theorem rename_if_code_spec_witness :
    lowerExt "main.py".data ∈ CODE_EXTENSIONS ∧
    rename_if_code "main.py".data = pyStem "main.py".data ++ ".txt".data ∧
    lowerExt "photo.jpeg".data ∉ CODE_EXTENSIONS ∧
    rename_if_code "photo.jpeg".data = "photo.jpeg".data :=
  ⟨by decide, ((rename_if_code_spec "main.py".data).1 (by decide)).1,
   by decide, (rename_if_code_spec "photo.jpeg".data).2 (by decide)⟩

/-- Claim C8: extension normalization is idempotent — applying
`rename_if_code` twice yields the same path as applying it once. -/
theorem rename_if_code_idem (name : List Char) :
    rename_if_code (rename_if_code name) = rename_if_code name := by
  by_cases h : lowerExt name ∈ CODE_EXTENSIONS
  · obtain ⟨heq, hne⟩ := rename_eq_of_mem name h
    rw [heq]
    have hmem : lowerExt (pyStem name ++ ".txt".data) ∉ CODE_EXTENSIONS := by
      unfold lowerExt
      rw [(pySuffix_append_txt (pyStem name) hne).1]
      decide
    unfold rename_if_code
    rw [if_neg hmem]
  · simp [rename_if_code, h]

/-- Claim C9: invariant of the staged file path — after normalization the
(lower-cased) extension is never a member of the recognized
code-extension set. -/
theorem rename_if_code_ext_not_code (name : List Char) :
    lowerExt (rename_if_code name) ∉ CODE_EXTENSIONS := by
  by_cases h : lowerExt name ∈ CODE_EXTENSIONS
  · obtain ⟨heq, hne⟩ := rename_eq_of_mem name h
    rw [heq]
    unfold lowerExt
    rw [(pySuffix_append_txt (pyStem name) hne).1]
    decide
  · unfold rename_if_code
    rw [if_neg h]
    exact h

/-- Witness for C9 at a concrete input. -/
theorem rename_if_code_ext_not_code_witness :
    lowerExt (rename_if_code "script.SH".data) ∉ CODE_EXTENSIONS :=
  rename_if_code_ext_not_code "script.SH".data

/-! ### Lemmas about token extraction and the authentication gate -/

lemma stripBearer_of_not_contains (l : List Char)
    (h : containsBearer l = false) : stripBearer l = l := by
  induction l using stripBearer.induct with
  | case1 rest ih =>
    rw [containsBearer] at h
    exact absurd h (by simp)
  | case2 c cs hne ih =>
    have hc : containsBearer cs = false := by
      rw [containsBearer] at h
      · exact h
      · exact hne
    rw [stripBearer]
    · rw [ih hc]
    · exact hne
  | case3 => rfl

lemma gate_unauthorized_of_cond (env : Env) (auth : Option String)
    (h : authFailCondition env auth) :
    ∃ d toks, get_current_user env auth = (GateResult.unauthorized d, toks) := by
  rcases h with h | h | ⟨a, ha, hne, hp⟩
  · subst h
    exact ⟨_, _, rfl⟩
  · subst h
    exact ⟨_, _, rfl⟩
  · subst ha
    rcases hp with ⟨m, hm⟩ | hm
    · simp only [get_current_user, hm]
      rw [if_neg hne]
      exact ⟨_, _, rfl⟩
    · simp only [get_current_user, hm]
      rw [if_neg hne]
      exact ⟨_, _, rfl⟩

/-- Claim C6: whenever the Authorization header is absent (or falsy-empty),
the identity provider rejects the token, or the provider returns no
associated user, every mandatory-auth generation endpoint answers with
HTTP 401 and performs no downstream call: nothing is staged, no remote
upload is attempted, and no generation call is made. -/
theorem auth_gate_blocks (env : Env) (auth : Option String)
    (files : List String) (prompt fn text : String)
    (h : authFailCondition env auth) :
    is401 (ask_gemini env auth text).1 = true ∧
    (ask_gemini env auth text).2.genCalls = [] ∧
    is401 (upload_files env auth files prompt).1 = true ∧
    (upload_files env auth files prompt).2.staged = [] ∧
    (upload_files env auth files prompt).2.uploadCalls = [] ∧
    (upload_files env auth files prompt).2.genCalls = [] ∧
    is401 (analyze_screen env auth fn prompt).1 = true ∧
    (analyze_screen env auth fn prompt).2.staged = [] ∧
    (analyze_screen env auth fn prompt).2.uploadCalls = [] ∧
    (analyze_screen env auth fn prompt).2.genCalls = [] := by
  obtain ⟨d, toks, hg⟩ := gate_unauthorized_of_cond env auth h
  refine ⟨?_, ?_, ?_, ?_, ?_, ?_, ?_, ?_, ?_, ?_⟩ <;>
    simp [ask_gemini, upload_files, analyze_screen, hg, is401]

/-- Witness for C6: a token the provider knows no user for is turned into
401 on all three endpoints, with empty side-effect traces. -/
theorem auth_gate_blocks_witness :
    is401 (ask_gemini envC6 (some "Bearer bad") "hi").1 = true ∧
    (ask_gemini envC6 (some "Bearer bad") "hi").2.genCalls = [] ∧
    is401 (upload_files envC6 (some "Bearer bad") ["a.py"] "p").1 = true ∧
    (upload_files envC6 (some "Bearer bad") ["a.py"] "p").2.staged = [] ∧
    (upload_files envC6 (some "Bearer bad") ["a.py"] "p").2.uploadCalls = [] ∧
    (upload_files envC6 (some "Bearer bad") ["a.py"] "p").2.genCalls = [] ∧
    is401 (analyze_screen envC6 (some "Bearer bad") "s.png" "p").1 = true ∧
    (analyze_screen envC6 (some "Bearer bad") "s.png" "p").2.staged = [] ∧
    (analyze_screen envC6 (some "Bearer bad") "s.png" "p").2.uploadCalls = [] ∧
    (analyze_screen envC6 (some "Bearer bad") "s.png" "p").2.genCalls = [] :=
  auth_gate_blocks envC6 (some "Bearer bad") ["a.py"] "p" "s.png" "hi"
    (Or.inr (Or.inr ⟨"Bearer bad", rfl, by decide, Or.inr rfl⟩))

/-- Claim C7: for every bearer token the identity provider accepts, the
gate returns the user whose id and email equal the provider's record, the
optional name and avatar fields coming from the `full_name` and
`avatar_url` metadata keys; when a key is missing from the metadata the
corresponding field is absent. -/
theorem auth_gate_user (env : Env) (a : String) (urec : UserRecord)
    (ha : a ≠ "")
    (hp : env.provider (extractToken a) = ProviderResult.ok (some urec)) :
    (get_current_user env (some a)).1 =
      GateResult.ok
        ⟨urec.id, urec.email, metaGet urec.user_metadata "full_name",
         metaGet urec.user_metadata "avatar_url"⟩ ∧
    (urec.user_metadata.all (fun p => p.1 != "full_name") = true →
       metaGet urec.user_metadata "full_name" = none) ∧
    (urec.user_metadata.all (fun p => p.1 != "avatar_url") = true →
       metaGet urec.user_metadata "avatar_url" = none) := by
  refine ⟨?_, ?_, ?_⟩
  · simp only [get_current_user, hp]
    rw [if_neg ha]
  · intro hall
    unfold metaGet
    rw [List.find?_eq_none.mpr]
    · rfl
    · intro p hmem
      have hb := List.all_eq_true.mp hall p hmem
      simpa using hb
  · intro hall
    unfold metaGet
    rw [List.find?_eq_none.mpr]
    · rfl
    · intro p hmem
      have hb := List.all_eq_true.mp hall p hmem
      simpa using hb

/-- Witness for C7: the provider accepts `abc` and resolves it to `rec7`;
the gate returns id/email from the record, the `full_name` metadata value,
and an absent avatar. -/
theorem auth_gate_user_witness :
    (get_current_user envC7 (some "Bearer abc")).1 =
      GateResult.ok ⟨"user-1", "ada@example.com", some "Ada", none⟩ :=
  (auth_gate_user envC7 "Bearer abc" rec7 (by decide) rfl).1

/-- Claim C10 counterexample: the header `xBearer y` does not start with
`Bearer `, yet the token sent to the provider is `xy`, not the header
itself — the claim's "forwarded to the provider as-is" clause fails. -/
theorem bearer_header_not_forwarded_as_is :
    ("Bearer ".data.isPrefixOf "xBearer y".data) = false ∧
    (get_current_user envC10 (some "xBearer y")).2 = ["xy"] ∧
    ("xy" : String) ≠ "xBearer y" := by
  refine ⟨by decide, by decide, by decide⟩

/-- Claim C10 (amended): for every non-empty Authorization header value,
the token sent to the identity provider is the header with every
(left-to-right, non-overlapping) occurrence of the substring `Bearer `
removed; in particular a header that does not contain `Bearer ` anywhere
is forwarded as-is. -/
theorem token_extraction (env : Env) (a : String) (ha : a ≠ "") :
    (get_current_user env (some a)).2 = [String.mk (stripBearer a.data)] ∧
    (containsBearer a.data = false →
       (get_current_user env (some a)).2 = [a]) := by
  have hmain : (get_current_user env (some a)).2 =
      [String.mk (stripBearer a.data)] := by
    simp only [get_current_user]
    rw [if_neg ha]
    cases env.provider (extractToken a) with
    | exn m => rfl
    | ok u =>
      cases u with
      | none => rfl
      | some r => rfl
  refine ⟨hmain, fun hnc => ?_⟩
  rw [hmain, stripBearer_of_not_contains a.data hnc]

/-- Witness for C10 (amended): a header without the substring `Bearer `
goes to the provider unchanged. -/
theorem token_extraction_witness :
    ("hello" : String) ≠ "" ∧
    (get_current_user envC10 (some "hello")).2 = ["hello"] :=
  ⟨by decide, (token_extraction envC10 "hello" (by decide)).2 (by decide)⟩

/-! ### Lemmas about the upload batch and the generation endpoints -/

lemma processUploads_abort (env : Env) (rest : List String) (f e : String)
    (hf : env.upload (rename_if_code f.data) = Except.error e) :
    ∀ pre : List String,
      (∀ g ∈ pre, ∃ r, env.upload (rename_if_code g.data) = Except.ok r) →
      processUploads env (pre ++ f :: rest) =
        ⟨pre.map String.data ++ [f.data],
         pre.map (fun g => rename_if_code g.data) ++ [rename_if_code f.data],
         Except.error (f, e)⟩
  | [] => fun _ => by simp [processUploads, hf]
  | g :: pre => fun hpre => by
      obtain ⟨r, hr⟩ := hpre g (List.mem_cons_self g pre)
      have ih := processUploads_abort env rest f e hf pre
        (fun x hx => hpre x (List.mem_cons_of_mem g hx))
      simp [processUploads, hr, ih]

lemma processUploads_ok (env : Env) (ref : String → Nat) :
    ∀ files : List String,
      (∀ g ∈ files, env.upload (rename_if_code g.data) = Except.ok (ref g)) →
      processUploads env files =
        ⟨files.map String.data, files.map (fun g => rename_if_code g.data),
         Except.ok (files.map ref)⟩
  | [] => fun _ => rfl
  | g :: fs => fun hall => by
      have ih := processUploads_ok env ref fs
        (fun x hx => hall x (List.mem_cons_of_mem g hx))
      simp [processUploads, hall g (List.mem_cons_self g fs), ih]

/-- Claim C4: in `/upload`, when the remote upload throws for a file in the
list (all earlier uploads having succeeded), the response is exactly the
JSON body `error = "Error uploading file <client filename>: <message>"`,
the remaining files are neither staged nor uploaded, and no generation
call is attempted. -/
theorem upload_first_failure_aborts (env : Env) (auth : Option String)
    (pre rest : List String) (f prompt e : String) (u : User)
    (toks : List String)
    (hgate : get_current_user env auth = (GateResult.ok u, toks))
    (hpre : ∀ g ∈ pre, ∃ r, env.upload (rename_if_code g.data) = Except.ok r)
    (hf : env.upload (rename_if_code f.data) = Except.error e) :
    (upload_files env auth (pre ++ f :: rest) prompt).1 =
      Response.json (Body.error ("Error uploading file " ++ f ++ ": " ++ e)) ∧
    (upload_files env auth (pre ++ f :: rest) prompt).2.staged =
      pre.map String.data ++ [f.data] ∧
    (upload_files env auth (pre ++ f :: rest) prompt).2.uploadCalls =
      pre.map (fun g => rename_if_code g.data) ++ [rename_if_code f.data] ∧
    (upload_files env auth (pre ++ f :: rest) prompt).2.genCalls = [] := by
  have hppu := processUploads_abort env rest f e hf pre hpre
  refine ⟨?_, ?_, ?_, ?_⟩ <;> simp [upload_files, hgate, hppu]

/-- Witness for C4: with three files `a.txt`, `b.py`, `c.jpg` and the
remote upload failing on the normalized `b.txt`, the batch aborts with the
client-supplied filename `b.py` in the error body, `c.jpg` untouched, and
no generation call. -/
theorem upload_first_failure_aborts_witness :
    (upload_files envC4 (some "tok") (["a.txt"] ++ "b.py" :: ["c.jpg"]) "summarize").1 =
      Response.json (Body.error ("Error uploading file " ++ "b.py" ++ ": " ++ "boom")) ∧
    (upload_files envC4 (some "tok") (["a.txt"] ++ "b.py" :: ["c.jpg"]) "summarize").2.staged =
      ["a.txt"].map String.data ++ ["b.py".data] ∧
    (upload_files envC4 (some "tok") (["a.txt"] ++ "b.py" :: ["c.jpg"]) "summarize").2.uploadCalls =
      ["a.txt"].map (fun g => rename_if_code g.data) ++ [rename_if_code "b.py".data] ∧
    (upload_files envC4 (some "tok") (["a.txt"] ++ "b.py" :: ["c.jpg"]) "summarize").2.genCalls = [] :=
  upload_first_failure_aborts envC4 (some "tok") ["a.txt"] ["c.jpg"] "b.py"
    "summarize" "boom" userW ["tok"] rfl
    (fun g hg => by
      simp only [List.mem_singleton] at hg
      subst hg
      exact ⟨7, rfl⟩)
    rfl

/-- Claim C5: in `/upload`, when every per-file remote upload succeeds, the
single generation call receives exactly the file references in submission
order, followed by the separator text, followed by the prompt text. -/
theorem upload_generation_contents (env : Env) (auth : Option String)
    (files : List String) (prompt : String) (u : User) (toks : List String)
    (ref : String → Nat)
    (hgate : get_current_user env auth = (GateResult.ok u, toks))
    (hall : ∀ g ∈ files, env.upload (rename_if_code g.data) = Except.ok (ref g)) :
    (upload_files env auth files prompt).2.genCalls =
      [("gemini-2.0-flash",
        files.map (fun g => Content.file (ref g)) ++
          [Content.text "\n\n", Content.text prompt])] := by
  have hppu := processUploads_ok env ref files hall
  have hmm : List.map Content.file (List.map ref files) =
      List.map (fun g => Content.file (ref g)) files := by
    rw [List.map_map]
    rfl
  simp only [upload_files, hgate, hppu]
  cases env.generate "gemini-2.0-flash"
      (List.map Content.file (List.map ref files) ++
        [Content.text "\n\n", Content.text prompt]) with
  | ok t => simp [hmm]
  | error e => simp [hmm]

/-- Witness for C5: `main.py` (normalized to `main.txt`, reference 1) and
`notes.pdf` (reference 2) produce the content list
`[file 1, file 2, separator, prompt]`. -/
theorem upload_generation_contents_witness :
    (upload_files envC5 (some "tok") ["main.py", "notes.pdf"] "summarize").2.genCalls =
      [("gemini-2.0-flash",
        [Content.file 1, Content.file 2, Content.text "\n\n",
         Content.text "summarize"])] := by
  have h := upload_generation_contents envC5 (some "tok") ["main.py", "notes.pdf"]
    "summarize" userW ["tok"] (fun g => if g = "main.py" then 1 else 2) rfl
    (fun g hg => by
      simp only [List.mem_cons, List.mem_singleton] at hg
      rcases hg with hg | hg | hg
      · subst hg; rfl
      · subst hg; rfl
      · exact absurd hg (List.not_mem_nil g))
  exact h

/-- Claim C1 counterexample: on `/ask` the generation call sits outside any
`try`/`except`, so an SDK exception escapes the handler as an unhandled
fault instead of being converted to a JSON error body. -/
theorem ask_exception_propagates :
    (ask_gemini envC1 (some "tok") "hi").1 = Response.unhandled "boom" ∧
    (ask_gemini envC1 (some "tok") "hi").1 ≠ Response.json (Body.error "boom") := by
  refine ⟨by decide, by decide⟩

/-- Claim C1 (amended): on `/upload` and `/analyze-screen`, every SDK
exception raised during the per-file upload step or the generation call is
caught and converted into the JSON error body returned with HTTP 200; on
`/ask`, an SDK exception from the generation call propagates as an
unhandled fault. -/
theorem sdk_error_handling (env : Env) (auth : Option String)
    (files : List String) (prompt fn text f e : String) (u : User)
    (toks : List String) (refs : List Nat) (r : Nat)
    (hgate : get_current_user env auth = (GateResult.ok u, toks)) :
    ((processUploads env files).result = Except.error (f, e) →
       (upload_files env auth files prompt).1 =
         Response.json (Body.error ("Error uploading file " ++ f ++ ": " ++ e))) ∧
    ((processUploads env files).result = Except.ok refs →
       env.generate "gemini-2.0-flash"
           (refs.map Content.file ++ [Content.text "\n\n", Content.text prompt]) =
         Except.error e →
       (upload_files env auth files prompt).1 = Response.json (Body.error e)) ∧
    (env.upload (screenshotName fn) = Except.error e →
       (analyze_screen env auth fn prompt).1 = Response.json (Body.error e)) ∧
    (env.upload (screenshotName fn) = Except.ok r →
       env.generate "gemini-2.0-flash"
           [Content.file r, Content.text (analyzeText prompt)] =
         Except.error e →
       (analyze_screen env auth fn prompt).1 = Response.json (Body.error e)) ∧
    (env.generate "gemini-2.5-flash" [Content.text text] = Except.error e →
       (ask_gemini env auth text).1 = Response.unhandled e) := by
  refine ⟨?_, ?_, ?_, ?_, ?_⟩
  · intro h1
    simp [upload_files, hgate, h1]
  · intro h1 h2
    simp [upload_files, hgate, h1, h2]
  · intro h1
    simp [analyze_screen, hgate, h1]
  · intro h1 h2
    simp [analyze_screen, hgate, h1, h2]
  · intro h1
    simp [ask_gemini, hgate, h1]

/-- Witness for C1 (amended): per-file upload failure and generation
failure become JSON error bodies on `/upload` and `/analyze-screen`, while
the same generation failure escapes `/ask` unhandled. -/
theorem sdk_error_handling_witness :
    (upload_files envC1w (some "tok") ["a.py"] "p").1 =
      Response.json (Body.error ("Error uploading file " ++ "a.py" ++ ": " ++ "ufail")) ∧
    (analyze_screen envC1w (some "tok") "s.png" "p").1 =
      Response.json (Body.error "gboom") ∧
    (ask_gemini envC1w (some "tok") "hi").1 = Response.unhandled "gboom" := by
  have h1 := sdk_error_handling envC1w (some "tok") ["a.py"] "p" "s.png" "hi"
    "a.py" "ufail" userW ["tok"] [] 0 rfl
  have h2 := sdk_error_handling envC1w (some "tok") ["a.py"] "p" "s.png" "hi"
    "a.py" "gboom" userW ["tok"] [] 5 rfl
  exact ⟨h1.1 rfl, h2.2.2.2.1 rfl rfl, h2.2.2.2.2 rfl⟩

/-- Claim C2 (the code violates it): on `/analyze-screen`, when the
generation call raises, the handler returns the JSON error body but the
staged screenshot is never deleted — `screenshot_path.unlink()` runs only
on the success path. -/
theorem analyze_screen_no_cleanup_on_failure :
    (analyze_screen envC2 (some "tok") "s.png" "p").1 =
      Response.json (Body.error "boom") ∧
    (analyze_screen envC2 (some "tok") "s.png" "p").2.staged =
      [screenshotName "s.png"] ∧
    (analyze_screen envC2 (some "tok") "s.png" "p").2.deleted = [] := by
  refine ⟨by decide, by decide, by decide⟩

end ChristinaAPI
